import Mathlib

/-!
Verification of the segment muxer (`libavformat/segment.c`): a shallow
embedding of the segmenter's data model and per-packet logic, together
with theorems settling the specification's claims about it.

Conventions of the embedding:
* C `int`/`int64_t` values are modelled as `Int` (indices and counts that
  the code keeps non-negative are modelled as `Nat` where noted).
* The input option string for `segment_valid_frames` is modelled as a
  `List Char` (the C code walks a NUL-terminated `char *`).
* External libavutil helpers (`av_strtok`, `strtol`, `av_compare_ts`) are
  modelled from their documented interface behaviour; everything else is
  translated from `segment.c` itself.
* File I/O and muxer callbacks are modelled by outcome parameters (the
  return codes the collaborators would produce) plus an event trace that
  records the order of trailer writes, sink opens/closes, and frees.
-/

/-- `AVERROR(EINVAL)`: the negative error code returned for invalid
configuration input (`-22` on the reference platform). -/
def AVERROR_EINVAL : Int := -22

/-- Accumulating decimal-digit parser: consumes leading digits, stopping at
the first non-digit, as `strtol` does after sign handling. -/
def parseDigits : List Char → Int → Int
  | c :: cs, acc => if c.isDigit then parseDigits cs (acc * 10 + ((c.toNat : Int) - 48)) else acc
  | [], acc => acc

/-- Model of C `strtol(s, NULL, 10)`: skip leading spaces, read an optional
sign, then a run of decimal digits; an input with no digits yields 0. -/
def strtol (s : List Char) : Int :=
  match s.dropWhile (fun c => c = ' ') with
  | '-' :: cs => - parseDigits cs 0
  | '+' :: cs => parseDigits cs 0
  | cs => parseDigits cs 0

/-- Model of repeated `av_strtok(s, ",", &p)` calls: the non-empty maximal
runs of non-comma characters, in order (leading, trailing and repeated
commas produce no empty tokens, as with `strtok`). `cur` accumulates the
current token in reverse. -/
def tokensAux : List Char → List Char → List (List Char)
  | [], cur => if cur.isEmpty then [] else [cur.reverse]
  | c :: cs, cur =>
    if c = ',' then
      if cur.isEmpty then tokensAux cs [] else cur.reverse :: tokensAux cs []
    else tokensAux cs (c :: cur)

/-- The token list `av_strtok` yields for a comma-delimited string. -/
def av_strtok_commas (s : List Char) : List (List Char) := tokensAux s []

/-- Number of `','` delimiters in the option string (the first loop of
`parse_valid_frames`). -/
def countCommas (s : List Char) : Nat := s.count ','

/-- The body of the `while (frame)` loop of `parse_valid_frames`: each
token is converted with `strtol` and stored at the next array slot; after
storing, if the slot is not the first and its value is not strictly
greater than its predecessor the function returns `AVERROR(EINVAL)`.
Returns the final return code together with the values written into the
array (in order, including the offending one on the error path). -/
def parseLoopAux : List (List Char) → List Int → Int × List Int
  | [], acc => (0, acc)
  | t :: ts, acc =>
    match acc.getLast? with
    | some prev =>
      if strtol t ≤ prev then (AVERROR_EINVAL, acc ++ [strtol t])
      else parseLoopAux ts (acc ++ [strtol t])
    | none => parseLoopAux ts (acc ++ [strtol t])

/-- Observable outcome of `parse_valid_frames`: the return code, the value
stored through `*nb_valid_frames`, the sequence of values written through
`*valid_frames`, and the number of array entries the call to
`av_realloc_f(NULL, sizeof(**valid_frames), i)` allocates room for. -/
structure ParseResult where
  ret : Int
  nb : Nat
  written : List Int
  alloc : Nat
  deriving DecidableEq

/-- Model of `parse_valid_frames` (segment.c lines 54-88): count the
delimiters, publish `delimiters + 1` as the entry count, allocate room for
`delimiters` entries, then tokenize and store each value, failing with
`AVERROR(EINVAL)` on the first value not strictly above its predecessor. -/
def parse_valid_frames (s : List Char) : ParseResult :=
  let commas := countCommas s
  let r := parseLoopAux (av_strtok_commas s) []
  { ret := r.1, nb := commas + 1, written := r.2, alloc := commas }

/-- Cursor initialisation of `seg_write_header` (segment.c lines 179-186),
run when `nb_valid_frames` is non-zero: `next_valid_frame_index` is 0 when
`valid_frames[0]` is non-zero and 1 when it is zero, and
`next_valid_frame` is loaded from `valid_frames[next_valid_frame_index]`.
The array read is modelled with `List.get?`, so `none` marks a read past
the end of the list. -/
def initCursor (valid_frames : List Int) : Nat × Option Int :=
  let idx := if valid_frames.getD 0 0 ≠ 0 then 0 else 1
  (idx, valid_frames.get? idx)

example : parse_valid_frames "5".data = { ret := 0, nb := 1, written := [5], alloc := 0 } := by decide
example : parse_valid_frames "5,5".data =
    { ret := AVERROR_EINVAL, nb := 2, written := [5, 5], alloc := 1 } := by decide
example : parse_valid_frames "0".data = { ret := 0, nb := 1, written := [0], alloc := 0 } := by decide
example : parse_valid_frames "5,10,15".data =
    { ret := 0, nb := 3, written := [5, 10, 15], alloc := 2 } := by decide
example : parse_valid_frames "10,3".data =
    { ret := AVERROR_EINVAL, nb := 2, written := [10, 3], alloc := 1 } := by decide
example : initCursor [0, 10] = (1, some 10) := by decide
example : initCursor [5, 10] = (0, some 5) := by decide
example : initCursor [0] = (1, none) := by decide

/-- A stream time base, a positive rational `num/den` (`AVRational`). -/
structure TimeBase where
  num : Int
  den : Int
  deriving DecidableEq

/-- `AV_TIME_BASE_Q`, the common time base `1/1000000` used for the
threshold comparison. -/
def AV_TIME_BASE_Q : TimeBase := ⟨1, 1000000⟩

/-- Model of libavutil `av_compare_ts(a, tb_a, b, tb_b)`: the exact sign
of `a·tb_a − b·tb_b` as rationals, computed by cross multiplication
(equivalent to the rescale-and-compare implementation for the positive
time bases used here). -/
def av_compare_ts (a : Int) (tbA : TimeBase) (b : Int) (tbB : TimeBase) : Int :=
  if a * tbA.num * tbB.den < b * tbB.num * tbA.den then -1
  else if a * tbA.num * tbB.den = b * tbB.num * tbA.den then 0
  else 1

/-- Media type of the stream a packet belongs to (`codec->codec_type`). -/
inductive CodecType where
  | video
  | audio
  | other
  deriving DecidableEq

/-- The per-packet inputs `seg_write_packet` consults: the presentation
timestamp with its stream's time base, the stream's media type, and the
`AV_PKT_FLAG_KEY` flag. -/
structure Packet where
  pts : Int
  time_base : TimeBase
  codecType : CodecType
  keyFlag : Bool
  deriving DecidableEq

/-- The fields of `SegmentContext` that the split decision and rotation
logic read or write.  `number` is the segment counter (`seg->number`),
`recording_time` is `segment_time` in `AV_TIME_BASE` units,
`size`/`wrap` are `segment_list_size`/`segment_wrap`, `has_video` counts
the input's video streams, and the remaining fields are the parsed
valid-frames list with its cursor plus the running video frame count. -/
structure SegmentContext where
  number : Int
  recording_time : Int
  size : Int
  wrap : Int
  has_video : Int
  nb_valid_frames : Nat
  valid_frames : List Int
  next_valid_frame : Int
  next_valid_frame_index : Nat
  frame_count : Int
  deriving DecidableEq

/-- The cursor-advance step of `seg_write_packet` (segment.c lines
266-269): when the current valid frame is already behind `frame_count`
and a further entry exists, move the cursor forward one entry and reload
`next_valid_frame` from the array. -/
def validFramesAdvance (seg : SegmentContext) : SegmentContext :=
  if seg.next_valid_frame < seg.frame_count ∧ seg.next_valid_frame_index + 1 < seg.nb_valid_frames then
    { seg with
      next_valid_frame_index := seg.next_valid_frame_index + 1,
      next_valid_frame := seg.valid_frames.getD (seg.next_valid_frame_index + 1) 0 }
  else seg

/-- The initial `can_split` expression (segment.c lines 256-260): at least
one video stream, a packet on a video stream, and the key-frame flag. -/
def canSplitBase (seg : SegmentContext) (pkt : Packet) : Bool :=
  decide (seg.has_video ≠ 0) && decide (pkt.codecType = CodecType.video) && pkt.keyFlag

/-- `can_split` after the time-threshold downgrade (segment.c lines
262-263): the verdict is cleared when the packet timestamp, compared in
the common time base, is below `recording_time * number`. -/
def canSplitTime (seg : SegmentContext) (pkt : Packet) : Bool :=
  if av_compare_ts pkt.pts pkt.time_base (seg.recording_time * seg.number) AV_TIME_BASE_Q < 0
  then false
  else canSplitBase seg pkt

/-- The full split decision of `seg_write_packet` (segment.c lines
254-272) including its side effect: when a valid-frames list is present
the cursor is advanced (whatever the verdict so far) and the verdict is
cleared unless the cursor's value equals the current frame count.
Returns the verdict together with the (possibly advanced) state. -/
def computeCanSplit (seg : SegmentContext) (pkt : Packet) : Bool × SegmentContext :=
  if seg.nb_valid_frames ≠ 0 then
    (if (validFramesAdvance seg).next_valid_frame ≠ (validFramesAdvance seg).frame_count
     then false
     else canSplitTime seg pkt,
     validFramesAdvance seg)
  else (canSplitTime seg pkt, seg)

/-- The counter update of `segment_start` (segment.c lines 96-100): the
stored counter is first reduced modulo `wrap` when `wrap` is non-zero,
that reduced value is the index used for the file name, and the stored
counter becomes the reduced value plus one. Returns
`(naming index, new counter)`. -/
def advanceNumber (wrap number : Int) : Int × Int :=
  ((if wrap ≠ 0 then number % wrap else number),
   (if wrap ≠ 0 then number % wrap else number) + 1)

/-- The value of `seg->number` after `k` segments have been started:
0 initially, and each start applies `advanceNumber`.  (The first start,
performed by `seg_write_header`, increments without the wrap reduction,
which agrees with `advanceNumber` because the counter is 0 there.) -/
def numberAfterStarts (wrap : Int) : Nat → Int
  | 0 => 0
  | k + 1 => (advanceNumber wrap (numberAfterStarts wrap k)).2

/-- The file-naming index used by the `(k+1)`-th segment start. -/
def namingIndex (wrap : Int) (k : Nat) : Int :=
  (advanceNumber wrap (numberAfterStarts wrap k)).1

example : numberAfterStarts 3 4 = 1 := by decide
example : numberAfterStarts 0 4 = 4 := by decide
example : (List.range 5).map (namingIndex 3) = [0, 1, 2, 0, 1] := by decide

/-- Events on the segment's sink and muxer state, in the order the code
performs them. -/
inductive SegEvent where
  | trailerWrite (ret : Int)
  | sinkClose
  | privFree
  | sinkOpen (ret : Int)
  | headerWrite (ret : Int)
  | listReopen (ret : Int)
  | writePacket (ret : Int)
  deriving DecidableEq

/-- Model of `segment_end` (segment.c lines 134-151): call the format's
trailer writer when it exposes one and keep its return code, then close
the sink and free the muxer's private state unconditionally; the trailer
code is returned.  `hasTrailer` states whether `oc->oformat->write_trailer`
is non-NULL and `trailerRet` is the code that call would return. -/
def segment_end (hasTrailer : Bool) (trailerRet : Int) : Int × List SegEvent :=
  ((if hasTrailer then trailerRet else 0),
   (if hasTrailer then [SegEvent.trailerWrite trailerRet] else []) ++
     [SegEvent.sinkClose, SegEvent.privFree])

/-- Outcomes of the collaborator calls `segment_start` makes:
`nameOk` is whether `av_get_frame_filename` succeeds, `openRet` the
result of `avio_open2`, `headerRet` the result of `write_header`. -/
structure StartOutcomes where
  nameOk : Bool
  openRet : Int
  headerRet : Int
  deriving DecidableEq

/-- Model of `segment_start` (segment.c lines 90-132): reduce and bump the
counter while producing the naming index (the `seg->number++` argument is
evaluated even when the naming call fails), then open the sink, then write
the header; a header failure closes the sink and frees the private state
before the error is returned.  Returns
`(return code, new counter, events)`. -/
def segment_start (wrap number : Int) (io : StartOutcomes) : Int × Int × List SegEvent :=
  if io.nameOk = false then (AVERROR_EINVAL, (advanceNumber wrap number).2, [])
  else if io.openRet < 0 then
    (io.openRet, (advanceNumber wrap number).2, [SegEvent.sinkOpen io.openRet])
  else if io.headerRet < 0 then
    (io.headerRet, (advanceNumber wrap number).2,
     [SegEvent.sinkOpen io.openRet, SegEvent.headerWrite io.headerRet,
      SegEvent.sinkClose, SegEvent.privFree])
  else
    (0, (advanceNumber wrap number).2,
     [SegEvent.sinkOpen io.openRet, SegEvent.headerWrite io.headerRet])

/-- The playlist update performed after a successful split (segment.c
lines 287-295): append the new segment's naming index, then, when
`segment_list_size` is non-zero and divides the updated counter, close and
reopen the list sink for writing — which truncates the file, discarding
every entry written so far. -/
def recordAndRotate (size number : Int) (pl : List Int) (name : Int) : List Int :=
  if size ≠ 0 ∧ number % size = 0 then [] else pl ++ [name]

/-- The playlist contents after `k` segments have been started with no
wrap configured: `seg_write_header` records naming index 0 without a
rotation check, and every later start records its naming index `k-1` and
then applies the rotation rule with the updated counter `k`. -/
def playlistAfterSegments (size : Int) : Nat → List Int
  | 0 => []
  | 1 => [0]
  | Nat.succ (Nat.succ k) =>
    recordAndRotate size ((k : Int) + 2) (playlistAfterSegments size (k + 1)) ((k : Int) + 1)

example : playlistAfterSegments 2 1 = [0] := by decide
example : playlistAfterSegments 2 2 = [] := by decide
example : playlistAfterSegments 2 3 = [2] := by decide
example : playlistAfterSegments 2 4 = [] := by decide
example : playlistAfterSegments 0 4 = [0, 1, 2, 3] := by decide
example : playlistAfterSegments 5 4 = [0, 1, 2, 3] := by decide

/-- Outcomes of the collaborator calls one `seg_write_packet` invocation
may make, plus whether a list file and a trailer writer are configured. -/
structure PacketOutcomes where
  hasTrailer : Bool
  trailerRet : Int
  startCalls : StartOutcomes
  listConfigured : Bool
  listReopenRet : Int
  writeRet : Int
  deriving DecidableEq

/-- The observable result of one `seg_write_packet` call: its return
code, the updated context, the playlist contents, and the event trace. -/
structure WriteResult where
  ret : Int
  seg : SegmentContext
  playlist : List Int
  events : List SegEvent
  deriving DecidableEq

/-- The split block of `seg_write_packet` (segment.c lines 274-296), run
when `can_split` held: `segment_end`, then — only if it returned 0 —
`segment_start`; on success the playlist records the new name and may
rotate, where a failed reopen aborts with its error code. -/
def splitAndRecord (seg : SegmentContext) (io : PacketOutcomes) (pl : List Int) :
    Int × SegmentContext × List Int × List SegEvent :=
  let e := segment_end io.hasTrailer io.trailerRet
  if e.1 = 0 then
    let st := segment_start seg.wrap seg.number io.startCalls
    let seg2 := { seg with number := st.2.1 }
    if st.1 = 0 then
      if io.listConfigured then
        let pl2 := recordAndRotate seg2.size seg2.number pl (advanceNumber seg.wrap seg.number).1
        if seg2.size ≠ 0 ∧ seg2.number % seg2.size = 0 then
          if io.listReopenRet < 0 then
            (io.listReopenRet, seg2, pl2,
             e.2 ++ st.2.2 ++ [SegEvent.listReopen io.listReopenRet])
          else (0, seg2, pl2, e.2 ++ st.2.2 ++ [SegEvent.listReopen io.listReopenRet])
        else (0, seg2, pl2, e.2 ++ st.2.2)
      else (0, seg2, pl, e.2 ++ st.2.2)
    else (st.1, seg2, pl, e.2 ++ st.2.2)
  else (e.1, seg, pl, e.2)

/-- Model of `seg_write_packet` (segment.c lines 249-314): evaluate the
split decision (with its cursor side effect), run the split block on a
positive verdict, and on any split-block error jump to `fail` with that
code; otherwise bump `frame_count` for video packets and forward the
packet to the muxer's packet writer. -/
def seg_write_packet (seg : SegmentContext) (pkt : Packet) (io : PacketOutcomes) (pl : List Int) :
    WriteResult :=
  let c := computeCanSplit seg pkt
  let r := if c.1 then splitAndRecord c.2 io pl else (0, c.2, pl, ([] : List SegEvent))
  if r.1 ≠ 0 then
    { ret := r.1, seg := r.2.1, playlist := r.2.2.1, events := r.2.2.2 }
  else
    { ret := io.writeRet,
      seg := if pkt.codecType = CodecType.video
             then { r.2.1 with frame_count := r.2.1.frame_count + 1 }
             else r.2.1,
      playlist := r.2.2.1,
      events := r.2.2.2 ++ [SegEvent.writePacket io.writeRet] }

/-- The cursor-advance step never changes the video frame count. -/
theorem validFramesAdvance_frame_count (seg : SegmentContext) :
    (validFramesAdvance seg).frame_count = seg.frame_count := by
  unfold validFramesAdvance
  split <;> rfl

/-- Claim C4: on the single-entry input "5", `parse_valid_frames`
publishes an entry count of 1 (delimiters + 1) as the claim states, but
allocates room for only 0 entries while writing 1 value — a write past
the end of the allocated array, contradicting the claimed exact-count
allocation. -/
theorem parse_alloc_off_by_one :
    (parse_valid_frames "5".data).nb = 1 ∧
    (parse_valid_frames "5".data).alloc = 0 ∧
    (parse_valid_frames "5".data).written.length = 1 ∧
    ¬ ((parse_valid_frames "5".data).written.length ≤ (parse_valid_frames "5".data).alloc) := by
  decide

/-- Claim C10: whenever the configured valid-frames string parses to the
one-entry list `[0]`, the cursor initialisation of `seg_write_header`
sets `next_valid_frame_index` to 1 and the load of `valid_frames[1]`
falls past the end of the one-entry list (modelled as `none`). -/
theorem single_zero_entry_oob (s : List Char)
    (h : (parse_valid_frames s).written = [0]) :
    (initCursor (parse_valid_frames s).written).1 = 1 ∧
    (initCursor (parse_valid_frames s).written).2 = none := by
  rw [h]
  exact ⟨rfl, rfl⟩

/-- Claim C10 witness: the input "0" parses to `[0]` and exhibits the
out-of-bounds cursor initialisation. -/
theorem single_zero_entry_oob_witness :
    (parse_valid_frames "0".data).written = [0] ∧
    ((initCursor (parse_valid_frames "0".data).written).1 = 1 ∧
     (initCursor (parse_valid_frames "0".data).written).2 = none) :=
  ⟨by decide, single_zero_entry_oob "0".data (by decide)⟩

/-- Claim C6 counterexample: for the parsed list `[0, 10]`, whose first
value is 0, the cursor is initialised at index 1, not index 0 as the
claim states; for `[5, 10]`, first value non-zero, it starts at 0. -/
theorem cursor_init_counterexample :
    (initCursor [0, 10]).1 = 1 ∧ ¬ ((initCursor [0, 10]).1 = 0) ∧ (initCursor [5, 10]).1 = 0 := by
  decide

/-- Claim C6 amended: for every successfully parsed non-empty
valid-frames list, the cursor is initialised at index 1 when the first
listed value is 0, and at index 0 otherwise. -/
theorem cursor_init_amended (v : Int) (l : List Int) :
    (initCursor (v :: l)).1 = if v = 0 then 1 else 0 := by
  by_cases h : v = 0 <;> simp [initCursor, h]

/-- Claim C5 counterexample: with `segment_list_size = 2`, after segments
1-4 (naming indices 0-3) have been started and recorded, the playlist is
empty — it does not contain the entries for segments 3 and 4 (naming
indices 2 and 3). -/
theorem playlist_rotation_counterexample :
    playlistAfterSegments 2 4 = [] ∧ ¬ (playlistAfterSegments 2 4 = [2, 3]) := by
  decide

/-- Claim C5 amended: rotation fires when the count of started segments
is a positive multiple of `list_size`, immediately after the triggering
segment's own entry is recorded, and it discards every entry written so
far — including that one.  With `list_size = 2`: after 3 segments the
playlist holds segment 3's entry, recording segment 4's entry makes the
contents `[2, 3]` momentarily, and the rotation that follows in the same
call leaves the playlist empty. -/
theorem playlist_rotation_amended :
    playlistAfterSegments 2 3 = [2] ∧
    playlistAfterSegments 2 3 ++ [3] = [2, 3] ∧
    recordAndRotate 2 4 (playlistAfterSegments 2 3) 3 = [] ∧
    playlistAfterSegments 2 4 = [] := by
  decide

/-- Claim C2 counterexample: with `segment_wrap = 3` the stored counter
after 4 segment starts is 1, not the unwrapped count 4, and the
time-boundary comparison multiplies that wrapped counter: a key frame at
timestamp 2000000 (segment_duration 2000000) is split even though its
timestamp is below `segment_duration * 4`. -/
theorem wrap_boundary_counterexample :
    numberAfterStarts 3 4 = 1 ∧
    (computeCanSplit
      { number := numberAfterStarts 3 4, recording_time := 2000000, size := 0, wrap := 3,
        has_video := 1, nb_valid_frames := 0, valid_frames := [], next_valid_frame := 0,
        next_valid_frame_index := 0, frame_count := 0 }
      { pts := 2000000, time_base := ⟨1, 1000000⟩, codecType := CodecType.video,
        keyFlag := true }).1 = true ∧
    av_compare_ts 2000000 ⟨1, 1000000⟩ (2000000 * 4) AV_TIME_BASE_Q < 0 := by
  decide

/-- Claim C3 counterexample: in a session with no video streams, an audio
packet carrying the key flag whose timestamp is far past the time
threshold still gets a false split verdict — no packet can ever close a
segment in that configuration. -/
theorem no_video_counterexample :
    (computeCanSplit
      { number := 1, recording_time := 2000000, size := 0, wrap := 0, has_video := 0,
        nb_valid_frames := 0, valid_frames := [], next_valid_frame := 0,
        next_valid_frame_index := 0, frame_count := 0 }
      { pts := 1000000000, time_base := ⟨1, 1000000⟩, codecType := CodecType.audio,
        keyFlag := true }).1 = false ∧
    ¬ (av_compare_ts 1000000000 ⟨1, 1000000⟩ (2000000 * 1) AV_TIME_BASE_Q < 0) := by
  decide

/-- Claim C3 amended: when the input has no video streams the split
verdict is false for every packet — `can_split` starts from
`seg->has_video && ...`, so audio-only sessions never rotate. -/
theorem no_video_never_splits (seg : SegmentContext) (pkt : Packet)
    (h : seg.has_video = 0) :
    (computeCanSplit seg pkt).1 = false := by
  by_cases hnb : seg.nb_valid_frames ≠ 0 <;>
    simp [computeCanSplit, canSplitTime, canSplitBase, hnb, h, ite_self]

/-- Claim C3 amended, witness: a concrete audio-only session and packet. -/
theorem no_video_never_splits_witness :
    ({ number := 1, recording_time := 2000000, size := 0, wrap := 0, has_video := 0,
       nb_valid_frames := 0, valid_frames := [], next_valid_frame := 0,
       next_valid_frame_index := 0, frame_count := 0 } : SegmentContext).has_video = 0 ∧
    (computeCanSplit
      { number := 1, recording_time := 2000000, size := 0, wrap := 0, has_video := 0,
        nb_valid_frames := 0, valid_frames := [], next_valid_frame := 0,
        next_valid_frame_index := 0, frame_count := 0 }
      { pts := 5000000, time_base := ⟨1, 90000⟩, codecType := CodecType.other,
        keyFlag := false }).1 = false :=
  ⟨rfl, no_video_never_splits _ _ rfl⟩

/-- Claim C1 counterexample: the claim's time condition names "the
number of segments started so far", but the code compares against the
stored counter, which `segment_start` wraps: with `segment_wrap = 2`,
after 3 segment starts the stored counter is 1, and a video key frame
at timestamp 2000000 (segment_duration 2000000) gets a positive split
verdict even though its timestamp is below
`segment_duration * 3` — the claimed necessary condition fails while a
split occurs. -/
theorem split_time_unwrapped_counterexample :
    numberAfterStarts 2 3 = 1 ∧
    (computeCanSplit
      { number := numberAfterStarts 2 3, recording_time := 2000000, size := 0, wrap := 2,
        has_video := 1, nb_valid_frames := 0, valid_frames := [], next_valid_frame := 0,
        next_valid_frame_index := 0, frame_count := 0 }
      { pts := 2000000, time_base := ⟨1, 1000000⟩, codecType := CodecType.video,
        keyFlag := true }).1 = true ∧
    av_compare_ts 2000000 ⟨1, 1000000⟩ (2000000 * 3) AV_TIME_BASE_Q < 0 := by
  decide

/-- Claim C1 amended: a positive split verdict for a submitted packet
requires every one of: at least one video stream in the session, a
packet on a video stream carrying the key flag, a timestamp at or past
`recording_time * number` in the common time base — where `number` is
the stored segment counter, which equals the number of segments started
so far only while `segment_wrap` is disabled or not yet reached (with
wrap it is `((N-1) mod wrap) + 1` after `N` starts) — and, when a
non-empty valid-frames list is configured, the (advanced) cursor's
value equal to the current video frame count; whenever any of these
fails the verdict is false. -/
theorem split_only_if_conditions (seg : SegmentContext) (pkt : Packet)
    (h : (computeCanSplit seg pkt).1 = true) :
    seg.has_video ≠ 0 ∧
    pkt.codecType = CodecType.video ∧
    pkt.keyFlag = true ∧
    ¬ (av_compare_ts pkt.pts pkt.time_base (seg.recording_time * seg.number) AV_TIME_BASE_Q < 0) ∧
    (seg.nb_valid_frames ≠ 0 →
      (validFramesAdvance seg).next_valid_frame = seg.frame_count) := by
  unfold computeCanSplit at h
  by_cases hnb : seg.nb_valid_frames ≠ 0
  · rw [if_pos hnb] at h
    dsimp only [] at h
    by_cases hvf : (validFramesAdvance seg).next_valid_frame = (validFramesAdvance seg).frame_count
    · rw [if_neg (by simpa using hvf)] at h
      unfold canSplitTime at h
      by_cases hts : av_compare_ts pkt.pts pkt.time_base
          (seg.recording_time * seg.number) AV_TIME_BASE_Q < 0
      · rw [if_pos hts] at h
        exact absurd h (by simp)
      · rw [if_neg hts] at h
        unfold canSplitBase at h
        simp only [Bool.and_eq_true, decide_eq_true_eq] at h
        exact ⟨h.1.1, h.1.2, h.2, hts,
          fun _ => by rw [hvf, validFramesAdvance_frame_count]⟩
    · rw [if_pos hvf] at h
      exact absurd h (by simp)
  · rw [if_neg hnb] at h
    dsimp only [] at h
    unfold canSplitTime at h
    by_cases hts : av_compare_ts pkt.pts pkt.time_base
        (seg.recording_time * seg.number) AV_TIME_BASE_Q < 0
    · rw [if_pos hts] at h
      exact absurd h (by simp)
    · rw [if_neg hts] at h
      unfold canSplitBase at h
      simp only [Bool.and_eq_true, decide_eq_true_eq] at h
      exact ⟨h.1.1, h.1.2, h.2, hts, fun hc => absurd hc hnb⟩

/-- Claim C1 amended, witness: a session with one video stream and no valid-frames
list, and a video key frame past the time threshold, gets a positive
verdict, and the theorem's conditions hold there. -/
theorem split_only_if_conditions_witness :
    (computeCanSplit
      { number := 1, recording_time := 2000000, size := 0, wrap := 0, has_video := 1,
        nb_valid_frames := 0, valid_frames := [], next_valid_frame := 0,
        next_valid_frame_index := 0, frame_count := 0 }
      { pts := 3000000, time_base := ⟨1, 1000000⟩, codecType := CodecType.video,
        keyFlag := true }).1 = true ∧
    (({ number := 1, recording_time := 2000000, size := 0, wrap := 0, has_video := 1,
        nb_valid_frames := 0, valid_frames := [], next_valid_frame := 0,
        next_valid_frame_index := 0, frame_count := 0 } : SegmentContext).has_video ≠ 0 ∧
     ({ pts := 3000000, time_base := ⟨1, 1000000⟩, codecType := CodecType.video,
        keyFlag := true } : Packet).codecType = CodecType.video ∧
     ({ pts := 3000000, time_base := ⟨1, 1000000⟩, codecType := CodecType.video,
        keyFlag := true } : Packet).keyFlag = true ∧
     ¬ (av_compare_ts
          ({ pts := 3000000, time_base := ⟨1, 1000000⟩, codecType := CodecType.video,
             keyFlag := true } : Packet).pts
          ({ pts := 3000000, time_base := ⟨1, 1000000⟩, codecType := CodecType.video,
             keyFlag := true } : Packet).time_base
          (({ number := 1, recording_time := 2000000, size := 0, wrap := 0, has_video := 1,
              nb_valid_frames := 0, valid_frames := [], next_valid_frame := 0,
              next_valid_frame_index := 0, frame_count := 0 } : SegmentContext).recording_time *
           ({ number := 1, recording_time := 2000000, size := 0, wrap := 0, has_video := 1,
              nb_valid_frames := 0, valid_frames := [], next_valid_frame := 0,
              next_valid_frame_index := 0, frame_count := 0 } : SegmentContext).number)
          AV_TIME_BASE_Q < 0) ∧
     (({ number := 1, recording_time := 2000000, size := 0, wrap := 0, has_video := 1,
         nb_valid_frames := 0, valid_frames := [], next_valid_frame := 0,
         next_valid_frame_index := 0, frame_count := 0 } : SegmentContext).nb_valid_frames ≠ 0 →
       (validFramesAdvance
         { number := 1, recording_time := 2000000, size := 0, wrap := 0, has_video := 1,
           nb_valid_frames := 0, valid_frames := [], next_valid_frame := 0,
           next_valid_frame_index := 0, frame_count := 0 }).next_valid_frame =
       ({ number := 1, recording_time := 2000000, size := 0, wrap := 0, has_video := 1,
          nb_valid_frames := 0, valid_frames := [], next_valid_frame := 0,
          next_valid_frame_index := 0, frame_count := 0 } : SegmentContext).frame_count)) :=
  ⟨by decide, split_only_if_conditions _ _ (by decide)⟩

/-- Claim C7: `segment_end` closes the sink and frees the muxer's private
state on every path — also when the trailer write fails or is skipped —
and returns the trailer writer's code (0 when no trailer step exists). -/
theorem segment_end_cleanup (hasTrailer : Bool) (trailerRet : Int) :
    (segment_end hasTrailer trailerRet).1 = (if hasTrailer then trailerRet else 0) ∧
    SegEvent.sinkClose ∈ (segment_end hasTrailer trailerRet).2 ∧
    SegEvent.privFree ∈ (segment_end hasTrailer trailerRet).2 := by
  cases hasTrailer <;> simp [segment_end]

/-- Claim C8: on a positive split verdict the current segment is ended
before the next is started: when the trailer write succeeds and opening
the new segment's sink fails, the call returns that failure code, and
the trace shows the trailer written and the old sink closed strictly
before the failed open — with nothing after it. -/
theorem end_before_start_on_open_failure (seg : SegmentContext) (pkt : Packet)
    (io : PacketOutcomes) (pl : List Int)
    (hs : (computeCanSplit seg pkt).1 = true)
    (ht : io.hasTrailer = true) (htr : io.trailerRet = 0)
    (hn : io.startCalls.nameOk = true) (ho : io.startCalls.openRet < 0) :
    (seg_write_packet seg pkt io pl).ret = io.startCalls.openRet ∧
    (seg_write_packet seg pkt io pl).ret < 0 ∧
    (seg_write_packet seg pkt io pl).events =
      [SegEvent.trailerWrite 0, SegEvent.sinkClose, SegEvent.privFree,
       SegEvent.sinkOpen io.startCalls.openRet] := by
  have hne : io.startCalls.openRet ≠ 0 := by omega
  simp only [seg_write_packet, splitAndRecord, segment_end, segment_start, hs, ht, htr, hn,
    if_true, if_pos ho, if_neg hne]
  simp [hne, ho]

/-- Claim C8 witness: a concrete session where the split verdict is
positive, the trailer write succeeds, and the open of the next sink
fails with -5. -/
theorem end_before_start_on_open_failure_witness :
    (computeCanSplit
      { number := 1, recording_time := 2000000, size := 0, wrap := 0, has_video := 1,
        nb_valid_frames := 0, valid_frames := [], next_valid_frame := 0,
        next_valid_frame_index := 0, frame_count := 0 }
      { pts := 3000000, time_base := ⟨1, 1000000⟩, codecType := CodecType.video,
        keyFlag := true }).1 = true ∧
    ({ hasTrailer := true, trailerRet := 0, startCalls := ⟨true, -5, 0⟩,
       listConfigured := false, listReopenRet := 0, writeRet := 0 } : PacketOutcomes).hasTrailer = true ∧
    ({ hasTrailer := true, trailerRet := 0, startCalls := ⟨true, -5, 0⟩,
       listConfigured := false, listReopenRet := 0, writeRet := 0 } : PacketOutcomes).trailerRet = 0 ∧
    ({ hasTrailer := true, trailerRet := 0, startCalls := ⟨true, -5, 0⟩,
       listConfigured := false, listReopenRet := 0,
       writeRet := 0 } : PacketOutcomes).startCalls.nameOk = true ∧
    ({ hasTrailer := true, trailerRet := 0, startCalls := ⟨true, -5, 0⟩,
       listConfigured := false, listReopenRet := 0,
       writeRet := 0 } : PacketOutcomes).startCalls.openRet < 0 ∧
    ((seg_write_packet
        { number := 1, recording_time := 2000000, size := 0, wrap := 0, has_video := 1,
          nb_valid_frames := 0, valid_frames := [], next_valid_frame := 0,
          next_valid_frame_index := 0, frame_count := 0 }
        { pts := 3000000, time_base := ⟨1, 1000000⟩, codecType := CodecType.video,
          keyFlag := true }
        { hasTrailer := true, trailerRet := 0, startCalls := ⟨true, -5, 0⟩,
          listConfigured := false, listReopenRet := 0, writeRet := 0 }
        []).ret = ({ hasTrailer := true, trailerRet := 0, startCalls := ⟨true, -5, 0⟩,
                     listConfigured := false, listReopenRet := 0,
                     writeRet := 0 } : PacketOutcomes).startCalls.openRet ∧
     (seg_write_packet
        { number := 1, recording_time := 2000000, size := 0, wrap := 0, has_video := 1,
          nb_valid_frames := 0, valid_frames := [], next_valid_frame := 0,
          next_valid_frame_index := 0, frame_count := 0 }
        { pts := 3000000, time_base := ⟨1, 1000000⟩, codecType := CodecType.video,
          keyFlag := true }
        { hasTrailer := true, trailerRet := 0, startCalls := ⟨true, -5, 0⟩,
          listConfigured := false, listReopenRet := 0, writeRet := 0 }
        []).ret < 0 ∧
     (seg_write_packet
        { number := 1, recording_time := 2000000, size := 0, wrap := 0, has_video := 1,
          nb_valid_frames := 0, valid_frames := [], next_valid_frame := 0,
          next_valid_frame_index := 0, frame_count := 0 }
        { pts := 3000000, time_base := ⟨1, 1000000⟩, codecType := CodecType.video,
          keyFlag := true }
        { hasTrailer := true, trailerRet := 0, startCalls := ⟨true, -5, 0⟩,
          listConfigured := false, listReopenRet := 0, writeRet := 0 }
        []).events =
      [SegEvent.trailerWrite 0, SegEvent.sinkClose, SegEvent.privFree,
       SegEvent.sinkOpen ({ hasTrailer := true, trailerRet := 0, startCalls := ⟨true, -5, 0⟩,
                            listConfigured := false, listReopenRet := 0,
                            writeRet := 0 } : PacketOutcomes).startCalls.openRet]) :=
  ⟨by decide, rfl, rfl, rfl, by decide,
   end_before_start_on_open_failure _ _ _ _ (by decide) rfl rfl rfl (by decide)⟩

/-- Stepping a residue forward by one commutes with reduction modulo `w`. -/
theorem emod_succ_step (w n : Int) : (n % w + 1) % w = (n + 1) % w := by
  conv_rhs => rw [Int.add_emod]
  rw [Int.add_emod (n % w) 1 w, Int.emod_emod_of_dvd n dvd_rfl]

/-- With a non-zero wrap modulus, the counter stored after `k + 1`
segment starts is `k % w + 1`: the reduction in `segment_start` wraps the
stored counter itself. -/
theorem numberAfterStarts_of_wrap (w : Int) (hw : w ≠ 0) (k : Nat) :
    numberAfterStarts w (k + 1) = (k : Int) % w + 1 := by
  induction k with
  | zero => simp [numberAfterStarts, advanceNumber, hw]
  | succ n ih =>
    show (advanceNumber w (numberAfterStarts w (n + 1))).2 = _
    rw [ih]
    simp only [advanceNumber, if_pos hw]
    rw [emod_succ_step]
    push_cast
    ring_nf

/-- With wrap disabled the stored counter is the unwrapped start count. -/
theorem numberAfterStarts_of_no_wrap (k : Nat) :
    numberAfterStarts 0 k = (k : Int) := by
  induction k with
  | zero => rfl
  | succ n ih =>
    show (advanceNumber 0 (numberAfterStarts 0 n)).2 = _
    rw [ih]
    simp [advanceNumber]

/-- With a non-zero wrap modulus, the naming index of the `(k+1)`-th
segment start is `k % w`. -/
theorem namingIndex_of_wrap (w : Int) (hw : w ≠ 0) (k : Nat) :
    namingIndex w k = (k : Int) % w := by
  cases k with
  | zero => simp [namingIndex, numberAfterStarts, advanceNumber, hw]
  | succ n =>
    unfold namingIndex
    rw [numberAfterStarts_of_wrap w hw n]
    simp only [advanceNumber, if_pos hw]
    rw [emod_succ_step]
    push_cast
    ring_nf

/-- Claim C2 amended: the time boundary multiplies the stored segment
counter, and when `wrap_modulus` is set that counter is itself reduced
modulo the wrap value by every start — after `k + 1` starts it equals
`k % w + 1`, so beyond the first wrap cycle it no longer equals the
unwrapped count.  The naming part of the claim holds: the `(k+1)`-th
start names its file with index `k % w`.  Without wrap the counter is
the unwrapped count. -/
theorem wrap_boundary_amended (w : Int) (k : Nat) (hw : 0 < w) :
    numberAfterStarts w (k + 1) = (k : Int) % w + 1 ∧
    namingIndex w k = (k : Int) % w ∧
    numberAfterStarts 0 (k + 1) = (k : Int) + 1 := by
  have hw0 : w ≠ 0 := by omega
  refine ⟨numberAfterStarts_of_wrap w hw0 k, namingIndex_of_wrap w hw0 k, ?_⟩
  rw [numberAfterStarts_of_no_wrap (k + 1)]
  push_cast
  ring

/-- Claim C2 amended, witness: wrap 3 after 5 starts gives counter
`4 % 3 + 1 = 2` and naming index `4 % 3 = 1`. -/
theorem wrap_boundary_amended_witness :
    0 < (3 : Int) ∧
    (numberAfterStarts 3 (4 + 1) = ((4 : Nat) : Int) % 3 + 1 ∧
     namingIndex 3 4 = ((4 : Nat) : Int) % 3 ∧
     numberAfterStarts 0 (4 + 1) = ((4 : Nat) : Int) + 1) :=
  ⟨by decide, wrap_boundary_amended 3 4 (by decide)⟩

/-- The parse loop returns either 0 or `AVERROR(EINVAL)`. -/
theorem parseLoopAux_ret_cases (ts : List (List Char)) (acc : List Int) :
    (parseLoopAux ts acc).1 = 0 ∨ (parseLoopAux ts acc).1 = AVERROR_EINVAL := by
  induction ts generalizing acc with
  | nil => exact Or.inl rfl
  | cons t ts ih =>
    unfold parseLoopAux
    cases hl : acc.getLast? with
    | none => exact ih (acc ++ [strtol t])
    | some prev =>
      dsimp only
      by_cases hle : strtol t ≤ prev
      · rw [if_pos hle]
        exact Or.inr rfl
      · rw [if_neg hle]
        exact ih (acc ++ [strtol t])

/-- If the parse loop succeeds, the value written last before it ran
(if any) followed by the values of the remaining tokens form a strictly
ascending chain. -/
theorem parseLoopAux_ok_ascending (ts : List (List Char)) (acc : List Int)
    (h : (parseLoopAux ts acc).1 = 0) :
    List.Chain' (fun a b => a < b) (acc.getLast?.toList ++ ts.map strtol) := by
  induction ts generalizing acc with
  | nil => cases acc.getLast? <;> simp
  | cons t ts ih =>
    unfold parseLoopAux at h
    cases hl : acc.getLast? with
    | none =>
      rw [hl] at h
      have hrec := ih (acc ++ [strtol t]) h
      rw [List.getLast?_concat] at hrec
      simpa using hrec
    | some prev =>
      rw [hl] at h
      dsimp only at h
      by_cases hle : strtol t ≤ prev
      · rw [if_pos hle] at h
        simp [AVERROR_EINVAL] at h
      · rw [if_neg hle] at h
        have hrec := ih (acc ++ [strtol t]) h
        rw [List.getLast?_concat] at hrec
        simp only [Option.toList_some, List.map_cons, List.singleton_append,
          List.chain'_cons] at hrec ⊢
        exact ⟨by omega, hrec⟩

/-- Claim C9 counterexample: on the duplicate input "5,5" the parse
fails with `AVERROR(EINVAL)` — but a partial list stays visible to the
caller: the published count is 2 (non-zero) and both values were written
into the array before the error return. -/
theorem non_ascending_partial_state :
    (parse_valid_frames "5,5".data).ret = AVERROR_EINVAL ∧
    ¬ ((parse_valid_frames "5,5".data).nb = 0) ∧
    (parse_valid_frames "5,5".data).written = [5, 5] := by
  decide

/-- In a strictly ascending chain, any element precedes the one at the
next index. -/
theorem ascending_get_lt {l : List Int}
    (hch : List.Chain' (fun a b => a < b) l) (i : Nat) (a b : Int)
    (ha : l.get? i = some a) (hb : l.get? (i + 1) = some b) : a < b := by
  induction l generalizing i with
  | nil => simp at ha
  | cons x xs ih =>
    cases i with
    | zero =>
      cases xs with
      | nil => simp at hb
      | cons y ys =>
        simp only [List.get?] at ha hb
        obtain rfl : x = a := by injection ha
        obtain rfl : y = b := by injection hb
        exact (List.chain'_cons.mp hch).1
    | succ j =>
      simp only [List.get?] at ha hb
      exact ih hch.tail j ha hb

/-- Claim C9 amended: for every input with an adjacent token pair whose
second value is not strictly greater than the first,
`parse_valid_frames` fails with `AVERROR(EINVAL)`; the out-parameters
are not reset, however — the published entry count remains
`delimiters + 1`, so a partial list stays visible to the caller (the
session aborts on the error, discarding it). -/
theorem non_ascending_parse_fails (s : List Char)
    (h : ∃ i : Nat, ∃ a b : Int,
        ((av_strtok_commas s).map strtol).get? i = some a ∧
        ((av_strtok_commas s).map strtol).get? (i + 1) = some b ∧ b ≤ a) :
    (parse_valid_frames s).ret = AVERROR_EINVAL ∧
    (parse_valid_frames s).nb = countCommas s + 1 := by
  refine ⟨?_, rfl⟩
  show (parseLoopAux (av_strtok_commas s) []).1 = AVERROR_EINVAL
  rcases parseLoopAux_ret_cases (av_strtok_commas s) [] with h0 | he
  · obtain ⟨i, a, b, ha, hb, hle⟩ := h
    have hch : List.Chain' (fun a b => a < b) ((av_strtok_commas s).map strtol) := by
      simpa using parseLoopAux_ok_ascending (av_strtok_commas s) [] h0
    exact absurd (ascending_get_lt hch i a b ha hb) (by omega)
  · exact he

/-- Claim C9 amended, witness: the duplicate input "5,5", whose adjacent
values 5, 5 violate strict ascent at index 0. -/
theorem non_ascending_parse_fails_witness :
    (∃ i : Nat, ∃ a b : Int,
        ((av_strtok_commas "5,5".data).map strtol).get? i = some a ∧
        ((av_strtok_commas "5,5".data).map strtol).get? (i + 1) = some b ∧ b ≤ a) ∧
    ((parse_valid_frames "5,5".data).ret = AVERROR_EINVAL ∧
     (parse_valid_frames "5,5".data).nb = countCommas "5,5".data + 1) :=
  ⟨⟨0, 5, 5, by decide, by decide, by decide⟩,
   non_ascending_parse_fails "5,5".data ⟨0, 5, 5, by decide, by decide, by decide⟩⟩
